import Mathlib

/-!
Verification of `slack_sdk/audit_logs/v1/async_client.py`
(`AsyncAuditLogsClient`): a shallow embedding of the client's parameter
assembly, header construction, transport invocation and session lifecycle,
together with theorems settling the specification claims.

Python dictionaries are modelled as ordered association lists with
Python-dict semantics: assignment replaces the value at the key's existing
position or appends at the end; `dict.update` performs such assignments
left to right; a dict comprehension filter preserves order.  External
effects (the aiohttp request, body-text reading) are modelled by an
outcome oracle passed to the embedded function.
-/

set_option autoImplicit false

namespace SlackAudit

/-- A Python value occurring in query/body parameter maps: `None`, an
`int`, or a `str` (the only value shapes the client's own parameters
produce: `latest`/`oldest`/`limit` are `Optional[int]`,
`action`/`actor`/`entity` are `Optional[str]`). -/
inductive PyValue where
  | none
  | int (n : Int)
  | str (s : String)
  deriving DecidableEq, Repr

/-- An ordered association list modelling a Python `dict`. -/
abbrev Dict (β : Type) := List (String × β)

/-- Python query-parameter dict (`Dict[str, any]`). -/
abbrev AList := Dict PyValue

/-- Python header dict (`Dict[str, str]`). -/
abbrev Headers := Dict String

/-- First-occurrence lookup, modelling Python `d[k]` / `k in d`. -/
def lookup? {β : Type} : Dict β → String → Option β
  | [], _ => Option.none
  | (k, v) :: rest, key => if k = key then some v else lookup? rest key

/-- Python dict assignment `d[key] = val`: replace the value at the key's
existing position, or append the pair at the end. -/
def dictInsert {β : Type} : Dict β → String → β → Dict β
  | [], key, val => [(key, val)]
  | (k, v) :: rest, key, val =>
      if k = key then (k, val) :: rest else (k, v) :: dictInsert rest key val

/-- Python `d.update(other)`: assign each pair of `other` in order. -/
def dictUpdate {β : Type} (d other : Dict β) : Dict β :=
  other.foldl (fun acc kv => dictInsert acc kv.1 kv.2) d

/-- The keys of a dict, in order. -/
def keys {β : Type} (d : Dict β) : List String := d.map Prod.fst

/-- Embeds a Python `Optional[int]` argument as the dict value it becomes. -/
def pyOfInt : Option Int → PyValue
  | some n => PyValue.int n
  | Option.none => PyValue.none

/-- Embeds a Python `Optional[str]` argument as the dict value it becomes. -/
def pyOfStr : Option String → PyValue
  | some s => PyValue.str s
  | Option.none => PyValue.none

/-- The dict literal of the six named filters built by `logs`
(async_client.py lines 153-160), in source order. -/
def namedFilters (latest oldest limit : Option Int)
    (action actor entity : Option String) : AList :=
  [("latest", pyOfInt latest), ("oldest", pyOfInt oldest), ("limit", pyOfInt limit),
   ("action", pyOfStr action), ("actor", pyOfStr actor), ("entity", pyOfStr entity)]

/-- Query-parameter assembly of `AsyncAuditLogsClient.logs` (async_client.py
lines 153-163): the six named filters are placed in a dict in source
order, `additional_query_params` is merged in with `dict.update` when
present, and `None`-valued entries are dropped by the comprehension
`{k: v for k, v in query_params.items() if v is not None}`. -/
def logsQueryParams (latest oldest limit : Option Int)
    (action actor entity : Option String)
    (additional : Option AList) : AList :=
  let query_params : AList := namedFilters latest oldest limit action actor entity
  let query_params :=
    match additional with
    | some a => dictUpdate query_params a
    | Option.none => query_params
  query_params.filter (fun kv => kv.2 ≠ PyValue.none)

/-- Sends an option value through the claim's null-dropping: a transmitted
value survives, a Python `None` is dropped. -/
def dropNone : Option PyValue → Option PyValue
  | some v => if v = PyValue.none then Option.none else some v
  | Option.none => Option.none

/-! ### Association-list lemmas -/

theorem lookup_dictInsert {β : Type} (d : Dict β) (k : String) (v : β)
    (key : String) :
    lookup? (dictInsert d k v) key = if k = key then some v else lookup? d key := by
  induction d with
  | nil => simp [dictInsert, lookup?]
  | cons hd tl ih =>
      obtain ⟨k0, v0⟩ := hd
      by_cases h0 : k0 = k
      · subst h0
        by_cases hk : k0 = key <;> simp [dictInsert, lookup?, hk]
      · by_cases hk : k0 = key
        · subst hk
          simp [dictInsert, lookup?, h0, Ne.symm h0]
        · simp [dictInsert, lookup?, h0, hk, ih]

theorem lookup_eq_none_of_not_mem_keys {β : Type} (d : Dict β) (key : String)
    (h : key ∉ keys d) : lookup? d key = Option.none := by
  induction d with
  | nil => rfl
  | cons hd tl ih =>
      obtain ⟨k0, v0⟩ := hd
      simp only [keys, List.map_cons, List.mem_cons, not_or] at h
      simp [lookup?, Ne.symm h.1, ih (by simpa [keys] using h.2)]

theorem keys_dictInsert {β : Type} (d : Dict β) (k : String) (v : β) :
    keys (dictInsert d k v) = if k ∈ keys d then keys d else keys d ++ [k] := by
  induction d with
  | nil => simp [dictInsert, keys]
  | cons hd tl ih =>
      obtain ⟨k0, v0⟩ := hd
      by_cases h0 : k0 = k
      · subst h0
        simp [dictInsert, keys]
      · simp only [dictInsert, if_neg h0, keys, List.map_cons]
        simp only [keys] at ih
        rw [ih]
        by_cases hk : k ∈ tl.map Prod.fst
        · simp [hk, Ne.symm h0]
        · simp [hk, Ne.symm h0]

theorem nodup_keys_dictInsert {β : Type} (d : Dict β) (k : String) (v : β)
    (h : (keys d).Nodup) : (keys (dictInsert d k v)).Nodup := by
  rw [keys_dictInsert]
  by_cases hk : k ∈ keys d
  · simpa [hk]
  · rw [if_neg hk]
    refine List.Nodup.append h (List.nodup_singleton k) ?_
    intro a ha hmem
    rw [List.mem_singleton] at hmem
    subst hmem
    exact hk ha

theorem nodup_keys_dictUpdate {β : Type} (d other : Dict β)
    (h : (keys d).Nodup) : (keys (dictUpdate d other)).Nodup := by
  induction other generalizing d with
  | nil => simpa [dictUpdate]
  | cons hd tl ih =>
      simpa [dictUpdate, List.foldl_cons] using
        ih (dictInsert d hd.1 hd.2) (nodup_keys_dictInsert d hd.1 hd.2 h)

/-- Looking up in `dictUpdate d other` when `other` has no duplicate keys:
the entry from `other` wins, otherwise the entry of `d` is found. -/
theorem lookup_dictUpdate {β : Type} (d other : Dict β) (key : String)
    (hnd : (keys other).Nodup) :
    lookup? (dictUpdate d other) key =
      match lookup? other key with
      | some v => some v
      | Option.none => lookup? d key := by
  induction other generalizing d with
  | nil => simp [dictUpdate, lookup?]
  | cons hd tl ih =>
      obtain ⟨k0, v0⟩ := hd
      simp only [keys, List.map_cons, List.nodup_cons] at hnd
      have step : dictUpdate d ((k0, v0) :: tl) = dictUpdate (dictInsert d k0 v0) tl := by
        simp [dictUpdate, List.foldl_cons]
      rw [step, ih (dictInsert d k0 v0) (by simpa [keys] using hnd.2)]
      by_cases hk : k0 = key
      · subst hk
        have : lookup? tl k0 = Option.none :=
          lookup_eq_none_of_not_mem_keys tl k0 (by simpa [keys] using hnd.1)
        simp [lookup?, this, lookup_dictInsert]
      · cases h : lookup? tl key <;>
          simp [lookup?, hk, h, lookup_dictInsert]

/-- Looking up in a `None`-filtered dict with no duplicate keys: present
entries keep their value, `None`-valued entries disappear. -/
theorem lookup_filter_ne_none (d : AList) (key : String)
    (hnd : (keys d).Nodup) :
    lookup? (d.filter (fun kv => kv.2 ≠ PyValue.none)) key =
      match lookup? d key with
      | some v => if v = PyValue.none then Option.none else some v
      | Option.none => Option.none := by
  induction d with
  | nil => simp [lookup?]
  | cons hd tl ih =>
      obtain ⟨k0, v0⟩ := hd
      simp only [keys, List.map_cons, List.nodup_cons] at hnd
      have ihtl := ih (by simpa [keys] using hnd.2)
      by_cases hv : v0 = PyValue.none
      · subst hv
        have hfil : ((k0, PyValue.none) :: tl).filter (fun kv => kv.2 ≠ PyValue.none)
            = tl.filter (fun kv => kv.2 ≠ PyValue.none) := by
          simp [List.filter_cons]
        rw [hfil]
        by_cases hk : k0 = key
        · subst hk
          have hsub : k0 ∉ keys (tl.filter (fun kv => kv.2 ≠ PyValue.none)) := by
            intro hmem
            apply hnd.1
            simp only [keys, List.mem_map] at hmem ⊢
            obtain ⟨p, hp, hpk⟩ := hmem
            exact ⟨p, List.mem_of_mem_filter hp, hpk⟩
          rw [lookup_eq_none_of_not_mem_keys _ _ hsub]
          simp [lookup?]
        · rw [ihtl]
          simp [lookup?, hk]
      · have hfil : ((k0, v0) :: tl).filter (fun kv => kv.2 ≠ PyValue.none)
            = (k0, v0) :: tl.filter (fun kv => kv.2 ≠ PyValue.none) := by
          simp [List.filter_cons, hv]
        rw [hfil]
        by_cases hk : k0 = key
        · subst hk
          simp [lookup?, hv]
        · simp only [lookup?, if_neg hk]
          rw [ihtl]

/-! ### Transport layer model -/

/-- An aiohttp `ClientSession`, reduced to the one observable the client
inspects and changes: whether it is closed. -/
structure Session where
  closed : Bool
  deriving DecidableEq, Repr

/-- Which session object a call used: the externally injected one
(`self.session`) or the one created inside `_perform_http_request`. -/
inductive SessionRef where
  | injected
  | created
  deriving DecidableEq, Repr

/-- The configuration a freshly created session receives
(async_client.py lines 222-226). -/
structure SessionConfig where
  timeout : Nat
  hasAuth : Bool
  trustEnv : Bool
  deriving DecidableEq, Repr

/-- Client configuration established by `__init__` (async_client.py lines
33-76).  `defaultHeaders` already contains the computed User-Agent entry
injected at construction time.  `loggerLevel` is the numeric level of the
attached logger (Python `logging.DEBUG` is 10). -/
structure Config where
  token : String
  timeout : Nat
  hasSsl : Bool
  proxy : Option String
  baseUrl : String
  trustEnvInSession : Bool
  hasAuth : Bool
  defaultHeaders : Headers
  loggerLevel : Nat
  deriving DecidableEq, Repr

/-- Numeric value of Python `logging.DEBUG`. -/
def DEBUG : Nat := 10

/-- The raw aiohttp response object `res` (status and headers, the fields
the client reads besides the body text). -/
structure RawRes where
  status : Nat
  headers : Headers
  deriving DecidableEq, Repr

/-- Outcome of `await res.text()` (async_client.py lines 239-247): the body
decoded as text, or one of the two exception types the source handles.
aiohttp's `text()` decodes the payload bytes with a charset; it performs no
JSON parsing, so an `ok` outcome may well carry text that is not valid
JSON. -/
inductive TextRead where
  | ok (text : String)
  | contentTypeError
  | jsonDecodeError (errMsg : String)
  deriving DecidableEq, Repr

/-- Outcome of `session.request(...)` as observed by the client: a response
object together with the later body-read outcome, or a transport-level
exception (connection failure, timeout, ...) that propagates unmodified. -/
inductive RequestOutcome where
  | response (res : RawRes) (bodyRead : TextRead)
  | transportError (errMsg : String)
  deriving DecidableEq, Repr

/-- Modelled from the spec: the response envelope `AuditLogsResponse`
(slack_sdk/audit_logs/v1/response.py is not among the provided sources).
Per the spec it wraps "request URL (string), HTTP status code (integer),
raw body (string), parsed body (mapping, empty if not parseable as JSON),
response headers"; because an unparseable body only yields an empty parsed
body, constructing the envelope never fails and the parsed body carries no
information beyond `raw_body`, so it is not materialised here.
`raw_body = Option.none` models the source's falsy initial placeholder
(`response_body` starts out as an empty `dict` at line 238 and is only
replaced when `res.text()` succeeds). -/
structure AuditLogsResponse where
  url : String
  status_code : Nat
  raw_body : Option String
  headers : Headers
  deriving DecidableEq, Repr

/-- How one invocation of `_perform_http_request` terminates: a returned
envelope, a raised `SlackApiError` (message plus the raw response object),
or a propagated transport exception. -/
inductive CallResult where
  | ok (resp : AuditLogsResponse)
  | slackApiError (message : String) (res : RawRes)
  | transportError (errMsg : String)
  deriving DecidableEq, Repr

/-- Whether a call result is a raised `SlackApiError`. -/
def isSlackApiError : CallResult → Bool
  | CallResult.slackApiError _ _ => true
  | _ => false

/-- A structured logging event emitted by the client; every logging call in
the source is made at debug level. -/
inductive LogEvent where
  | sendingRequest (url : String) (params : Option AList) (body : Option String)
      (headers : Headers)
  | noResponseData (url : String)
  | responseReceived (status : Nat) (rawBody : Option String)
  deriving DecidableEq, Repr

/-- A log record: numeric level plus event. -/
structure LogRec where
  level : Nat
  event : LogEvent
  deriving DecidableEq, Repr

/-- Python `str.lower()` as applied to header names (all ASCII): uppercase
ASCII letters are shifted to lowercase, everything else is kept. -/
def lowerAscii (s : String) : String :=
  String.mk (s.toList.map (fun c =>
    if 65 ≤ c.toNat && c.toNat ≤ 90 then Char.ofNat (c.toNat + 32) else c))

/-- Lines 206-209 of async_client.py: the dict comprehension building
`headers_for_logging`, replacing the value of every key whose `k.lower()`
equals "authorization" with "(redacted)" and keeping every other pair as
is. -/
def redactHeaders (headers : Headers) : Headers :=
  headers.map (fun kv =>
    (kv.1, if lowerAscii kv.1 = "authorization" then "(redacted)" else kv.2))

/-- Modelled from the spec: `_build_request_headers`
(slack_sdk/audit_logs/v1/internal_utils.py is not among the provided
sources).  Per the spec (section 4.2): "merged header map where per-call
headers take precedence over defaults, and an `Authorization: Bearer
<token>` header is always present"; the computed User-Agent is already part
of the client's default headers. -/
def buildRequestHeaders (token : String) (defaultHeaders : Headers)
    (additionalHeaders : Option Headers) : Headers :=
  dictUpdate
    (dictUpdate [("Authorization", "Bearer " ++ token)] defaultHeaders)
    (match additionalHeaders with
     | some h => h
     | Option.none => [])

/-- Escapes a string for inclusion in a JSON string literal (quote and
backslash; other characters pass through). -/
def jsonEscape (s : String) : String :=
  String.join (s.toList.map (fun c =>
    if c = '"' then "\\\"" else if c = '\\' then "\\\\" else String.singleton c))

/-- Serialization of one scalar value, as `json.dumps` renders it. -/
def jsonDumpsValue : PyValue → String
  | PyValue.none => "null"
  | PyValue.int n => toString n
  | PyValue.str s => "\"" ++ jsonEscape s ++ "\""

/-- Serialization of a string-keyed dict of scalar values, as `json.dumps`
(Python standard library) renders it with the default separators. -/
def jsonDumps (d : AList) : String :=
  "\x7b" ++ String.intercalate ", "
      (d.map (fun kv => "\"" ++ jsonEscape kv.1 ++ "\": " ++ jsonDumpsValue kv.2))
    ++ "\x7d"

/-- Everything observable about one invocation of
`_perform_http_request`: its result, the request actually handed to
`session.request` (URL, verb, headers, params, serialized body), the
session lifecycle facts, and the emitted log records. -/
structure PerformResult where
  result : CallResult
  requestUrl : String
  sentVerb : String
  sentHeaders : Headers
  sentParams : Option AList
  sentBody : Option String
  usedSession : SessionRef
  createdSession : Option SessionConfig
  closedAtEnd : Option SessionRef
  injectedAfter : Option Session
  logTrace : List LogRec
  deriving DecidableEq, Repr

/-- Whether the injected session is reused, `use_running_session =
self.session and not self.session.closed` (async_client.py line 218); a
missing session (`None`) is falsy. -/
def useRunningSession (injected : Option Session) : Bool :=
  match injected with
  | some s => !s.closed
  | Option.none => false

/-- The method `AsyncAuditLogsClient._perform_http_request` (async_client.py
lines 192-260), with the external effects driven by `outcome`.
Line-by-line correspondence:
* lines 201-202: a supplied body is serialized with `json.dumps`;
* line 203: `headers["Content-Type"] = "application/json;charset=utf-8"`
  sits at `if`-level indentation, i.e. it is NOT guarded by the
  body-presence check and runs on every call;
* lines 205-216: when the logger level is at most DEBUG, log the request
  with `headers_for_logging`;
* lines 217-226: reuse the injected session when it exists and is open
  (`use_running_session`), otherwise create one configured with timeout,
  auth and `trust_env`;
* lines 229-255: the `try` body — issue the request, read the body text
  (an `aiohttp.ContentTypeError` leaves the empty placeholder body and
  logs at debug; a `json.decoder.JSONDecodeError` raised by the read is
  wrapped into `SlackApiError(message, res)`), build the envelope and log
  it (`_debug_log_response` is modelled from the spec: "log it at debug
  level");
* lines 256-258: the `finally` block closes `session` exactly when this
  call created it, on every exit path. -/
def performHttpRequest (cfg : Config) (injected : Option Session)
    (http_verb url : String) (query_params : Option AList)
    (body_params : Option AList) (headers0 : Headers)
    (outcome : RequestOutcome) : PerformResult :=
  let bodySent : Option String :=
    match body_params with
    | some b => some (jsonDumps b)
    | Option.none => Option.none
  let headers := dictInsert headers0 "Content-Type" "application/json;charset=utf-8"
  let debugLog : List LogRec :=
    if cfg.loggerLevel ≤ DEBUG then
      [⟨DEBUG, LogEvent.sendingRequest url query_params bodySent (redactHeaders headers)⟩]
    else []
  let use_running_session : Bool := useRunningSession injected
  let usedSession : SessionRef :=
    if use_running_session then SessionRef.injected else SessionRef.created
  let createdSession : Option SessionConfig :=
    if use_running_session then Option.none
    else some ⟨cfg.timeout, cfg.hasAuth, cfg.trustEnvInSession⟩
  let tryOutcome : CallResult × List LogRec :=
    match outcome with
    | RequestOutcome.transportError e => (CallResult.transportError e, [])
    | RequestOutcome.response res bodyRead =>
      match bodyRead with
      | TextRead.ok t =>
          (CallResult.ok ⟨url, res.status, some t, res.headers⟩,
           if cfg.loggerLevel ≤ DEBUG then
             [⟨DEBUG, LogEvent.responseReceived res.status (some t)⟩]
           else [])
      | TextRead.contentTypeError =>
          (CallResult.ok ⟨url, res.status, Option.none, res.headers⟩,
           (if cfg.loggerLevel ≤ DEBUG then
              [⟨DEBUG, LogEvent.noResponseData url⟩]
            else []) ++
           (if cfg.loggerLevel ≤ DEBUG then
              [⟨DEBUG, LogEvent.responseReceived res.status Option.none⟩]
            else []))
      | TextRead.jsonDecodeError e =>
          (CallResult.slackApiError ("Failed to parse the response body: " ++ e) res, [])
  let closedAtEnd : Option SessionRef :=
    if !use_running_session then some usedSession else Option.none
  let injectedAfter : Option Session :=
    match closedAtEnd, injected with
    | some SessionRef.injected, some _ => some ⟨true⟩
    | _, i => i
  { result := tryOutcome.1
    requestUrl := url
    sentVerb := http_verb
    sentHeaders := headers
    sentParams := query_params
    sentBody := bodySent
    usedSession := usedSession
    createdSession := createdSession
    closedAtEnd := closedAtEnd
    injectedAfter := injectedAfter
    logTrace := debugLog ++ tryOutcome.2 }

/-- The method `AsyncAuditLogsClient.api_call` (async_client.py lines 170-190):
concatenate `base_url + path`, build the final headers, delegate. -/
def api_call (cfg : Config) (injected : Option Session) (http_verb : String)
    (path : String) (query_params : Option AList) (body_params : Option AList)
    (headers : Option Headers) (outcome : RequestOutcome) : PerformResult :=
  performHttpRequest cfg injected http_verb (cfg.baseUrl ++ path) query_params
    body_params (buildRequestHeaders cfg.token cfg.defaultHeaders headers) outcome

/-- The method `AsyncAuditLogsClient.schemas` (async_client.py lines 78-97): a GET to
path "schemas" forwarding `query_params` and `headers` unchanged. -/
def schemas (cfg : Config) (injected : Option Session)
    (query_params : Option AList) (headers : Option Headers)
    (outcome : RequestOutcome) : PerformResult :=
  api_call cfg injected "GET" "schemas" query_params Option.none headers outcome

/-- The method `AsyncAuditLogsClient.actions` (async_client.py lines 99-118): a GET to
path "actions" forwarding `query_params` and `headers` unchanged. -/
def actions (cfg : Config) (injected : Option Session)
    (query_params : Option AList) (headers : Option Headers)
    (outcome : RequestOutcome) : PerformResult :=
  api_call cfg injected "GET" "actions" query_params Option.none headers outcome

/-- The method `AsyncAuditLogsClient.logs` (async_client.py lines 120-168): assemble
the query parameters from the six named filters and
`additional_query_params`, then GET path "logs". -/
def logs (cfg : Config) (injected : Option Session)
    (latest oldest limit : Option Int) (action actor entity : Option String)
    (additional_query_params : Option AList) (headers : Option Headers)
    (outcome : RequestOutcome) : PerformResult :=
  api_call cfg injected "GET" "logs"
    (some (logsQueryParams latest oldest limit action actor entity
      additional_query_params))
    Option.none headers outcome

/-- A character that can begin a JSON document accepted by Python's
`json.loads` (object, array, string, `true`/`false`/`null`, a number, or
the non-standard `NaN`/`Infinity`/`-Infinity` accepted by default). -/
def jsonStartChar (c : Char) : Bool :=
  c = Char.ofNat 123 || c = '[' || c = '"' || c = 't' || c = 'f' || c = 'n' ||
  c = '-' || c.isDigit || c = 'N' || c = 'I'

/-- JSON whitespace as skipped by Python's `json.loads`. -/
def pyJsonWs (c : Char) : Bool :=
  c = ' ' || c = '\t' || c = '\n' || c = '\r'

/-- A sound sufficient criterion for a string being rejected by Python's
`json.loads`: after leading JSON whitespace it is empty or starts with a
character that can begin no JSON document.  (Only used to certify that
concrete strings are not valid JSON; it makes no claim in the other
direction.) -/
def definitelyNotJson (s : String) : Bool :=
  match s.toList.dropWhile pyJsonWs with
  | [] => true
  | c :: _ => !jsonStartChar c

/-! ### Derived facts about the query assembly -/

/-- The additional-params dict seen by the merge: an absent map behaves as
an empty one. -/
def addlParams : Option AList → AList
  | some a => a
  | Option.none => []

theorem nodup_keys_namedFilters (latest oldest limit : Option Int)
    (action actor entity : Option String) :
    (keys (namedFilters latest oldest limit action actor entity)).Nodup := by
  have hk : keys (namedFilters latest oldest limit action actor entity)
      = ["latest", "oldest", "limit", "action", "actor", "entity"] := rfl
  rw [hk]
  decide

/-- Lookup characterization of the full `logs` query assembly: an entry of
`additional_query_params` overrides the named filter at the same key
(last write wins), and every `None`-valued entry is dropped afterwards. -/
theorem lookup_logsQueryParams (latest oldest limit : Option Int)
    (action actor entity : Option String) (additional : Option AList)
    (key : String) (hnd : (keys (addlParams additional)).Nodup) :
    lookup? (logsQueryParams latest oldest limit action actor entity additional) key
      = match lookup? (addlParams additional) key with
        | some v => dropNone (some v)
        | Option.none =>
            dropNone (lookup? (namedFilters latest oldest limit action actor entity) key) := by
  have hnamed := nodup_keys_namedFilters latest oldest limit action actor entity
  cases additional with
  | none =>
      have hshape : logsQueryParams latest oldest limit action actor entity Option.none
          = (namedFilters latest oldest limit action actor entity).filter
              (fun kv => kv.2 ≠ PyValue.none) := rfl
      rw [hshape, lookup_filter_ne_none _ _ hnamed]
      cases h : lookup? (namedFilters latest oldest limit action actor entity) key <;>
        simp [addlParams, lookup?, dropNone, h]
  | some a =>
      have hshape : logsQueryParams latest oldest limit action actor entity (some a)
          = (dictUpdate (namedFilters latest oldest limit action actor entity) a).filter
              (fun kv => kv.2 ≠ PyValue.none) := rfl
      have hnd' : (keys a).Nodup := by simpa [addlParams] using hnd
      rw [hshape, lookup_filter_ne_none _ _ (nodup_keys_dictUpdate _ _ hnamed),
        lookup_dictUpdate _ _ _ hnd']
      cases h : lookup? a key with
      | none =>
          cases h2 : lookup? (namedFilters latest oldest limit action actor entity) key <;>
            simp [addlParams, dropNone, h, h2]
      | some v => simp [addlParams, dropNone, h]

/-! ### Header-agreement machinery for the redaction claim -/

/-- Pointwise relation between two header dicts: same keys at the same
positions, and equal values wherever the key does not lowercase to
"authorization". -/
def AgreeExceptAuth (h1 h2 : Headers) : Prop :=
  List.Forall₂
    (fun p q => p.1 = q.1 ∧ (lowerAscii p.1 ≠ "authorization" → p.2 = q.2)) h1 h2

theorem agreeExceptAuth_dictInsert (h1 h2 : Headers) (k v : String)
    (hag : AgreeExceptAuth h1 h2) :
    AgreeExceptAuth (dictInsert h1 k v) (dictInsert h2 k v) := by
  induction hag with
  | nil => exact List.Forall₂.cons ⟨rfl, fun _ => rfl⟩ List.Forall₂.nil
  | cons hpq hrest ih =>
      rename_i p q t1 t2
      obtain ⟨pk, pv⟩ := p
      obtain ⟨qk, qv⟩ := q
      obtain ⟨hk, hv⟩ := hpq
      have hk' : pk = qk := hk
      subst hk'
      by_cases hpk : pk = k
      · simp only [dictInsert, if_pos hpk]
        exact List.Forall₂.cons ⟨rfl, fun _ => rfl⟩ hrest
      · simp only [dictInsert, if_neg hpk]
        exact List.Forall₂.cons ⟨rfl, hv⟩ ih

theorem agreeExceptAuth_dictUpdate (h1 h2 other : Headers)
    (hag : AgreeExceptAuth h1 h2) :
    AgreeExceptAuth (dictUpdate h1 other) (dictUpdate h2 other) := by
  induction other generalizing h1 h2 with
  | nil => exact hag
  | cons hd tl ih =>
      exact ih _ _ (agreeExceptAuth_dictInsert h1 h2 hd.1 hd.2 hag)

theorem redactHeaders_eq_of_agree (h1 h2 : Headers)
    (hag : AgreeExceptAuth h1 h2) : redactHeaders h1 = redactHeaders h2 := by
  induction hag with
  | nil => rfl
  | cons hpq hrest ih =>
      rename_i p q t1 t2
      obtain ⟨pk, pv⟩ := p
      obtain ⟨qk, qv⟩ := q
      obtain ⟨hk, hv⟩ := hpq
      have hk' : pk = qk := hk
      subst hk'
      have hv' : lowerAscii pk ≠ "authorization" → pv = qv := hv
      simp only [redactHeaders, List.map_cons] at ih ⊢
      by_cases hauth : lowerAscii pk = "authorization"
      · simp [hauth, ih]
      · simp [hauth, hv' hauth, ih]

/-! ### Concrete instances used by the witnesses -/

/-- A concrete client configuration used in witness instantiations. -/
def cfgEx : Config :=
  { token := "xoxp-1", timeout := 30, hasSsl := false, proxy := Option.none,
    baseUrl := "https://api.slack.com/audit/v1/", trustEnvInSession := false,
    hasAuth := false, defaultHeaders := [("User-Agent", "ua")],
    loggerLevel := DEBUG }

/-- A concrete `additional_query_params` dict used in witness
instantiations: overrides `limit`, adds `cursor`, cancels `actor`. -/
def addlEx : AList :=
  [("limit", PyValue.int 5), ("cursor", PyValue.str "c1"), ("actor", PyValue.none)]

/-! ### The claims -/

/-- C1: for every combination of the six named filters and any
`additional_query_params` dict, the query map handed to the generic
invoker (and forwarded verbatim as the `params` request kwarg) is exactly
the assembled map, and that map holds, at each key, the additional param's
value when one is present (last write wins over the named filter),
otherwise the named filter's value — with every `None`-valued entry
dropped, so no null is ever transmitted. -/
theorem logs_sends_exact_query_map (cfg : Config) (injected : Option Session)
    (latest oldest limit : Option Int) (action actor entity : Option String)
    (additional : Option AList) (headers : Option Headers)
    (outcome : RequestOutcome) (key : String)
    (hnd : (keys (addlParams additional)).Nodup) :
    (logs cfg injected latest oldest limit action actor entity additional
        headers outcome).sentParams
      = some (logsQueryParams latest oldest limit action actor entity additional)
    ∧ lookup? (logsQueryParams latest oldest limit action actor entity additional) key
      = match lookup? (addlParams additional) key with
        | some v => dropNone (some v)
        | Option.none =>
            dropNone (lookup? (namedFilters latest oldest limit action actor entity) key) :=
  ⟨rfl, lookup_logsQueryParams latest oldest limit action actor entity additional key hnd⟩

theorem logs_sends_exact_query_map_witness :
    (keys (addlParams (some addlEx))).Nodup
    ∧ ((logs cfgEx Option.none (some 1) Option.none (some 9999) (some "user_login")
          (some "W123") Option.none (some addlEx) Option.none
          (RequestOutcome.transportError "down")).sentParams
        = some (logsQueryParams (some 1) Option.none (some 9999) (some "user_login")
            (some "W123") Option.none (some addlEx))
      ∧ lookup? (logsQueryParams (some 1) Option.none (some 9999) (some "user_login")
          (some "W123") Option.none (some addlEx)) "limit"
        = match lookup? (addlParams (some addlEx)) "limit" with
          | some v => dropNone (some v)
          | Option.none =>
              dropNone (lookup? (namedFilters (some 1) Option.none (some 9999)
                (some "user_login") (some "W123") Option.none) "limit")) :=
  ⟨by decide,
    logs_sends_exact_query_map cfgEx Option.none (some 1) Option.none (some 9999)
      (some "user_login") (some "W123") Option.none (some addlEx) Option.none
      (RequestOutcome.transportError "down") "limit" (by decide)⟩

/-- C2: whenever no externally supplied still-open session exists, the call
creates a session of its own (configured with the client's timeout, auth
and environment-trust flag) and the `finally` block closes that created
session on every exit path — normal return, wrapped parse error, and
propagated transport exception alike. -/
theorem created_session_closed_on_all_paths (cfg : Config) (injected : Option Session)
    (http_verb url : String) (query_params body_params : Option AList)
    (headers0 : Headers) (outcome : RequestOutcome)
    (hno : useRunningSession injected = false) :
    (performHttpRequest cfg injected http_verb url query_params body_params headers0
        outcome).createdSession
      = some { timeout := cfg.timeout, hasAuth := cfg.hasAuth,
               trustEnv := cfg.trustEnvInSession }
    ∧ (performHttpRequest cfg injected http_verb url query_params body_params headers0
        outcome).usedSession = SessionRef.created
    ∧ (performHttpRequest cfg injected http_verb url query_params body_params headers0
        outcome).closedAtEnd = some SessionRef.created := by
  refine ⟨?_, ?_, ?_⟩ <;> simp [performHttpRequest, hno]

theorem created_session_closed_on_all_paths_witness :
    useRunningSession Option.none = false
    ∧ (performHttpRequest cfgEx Option.none "GET" "https://api.slack.com/audit/v1/logs"
        Option.none Option.none [] (RequestOutcome.transportError "timeout")).closedAtEnd
      = some SessionRef.created :=
  ⟨rfl,
    (created_session_closed_on_all_paths cfgEx Option.none "GET"
      "https://api.slack.com/audit/v1/logs" Option.none Option.none []
      (RequestOutcome.transportError "timeout") rfl).2.2⟩

/-- C3 (amended): the transport invoker raises `SlackApiError` — carrying
the parse-failure message and the raw response object — exactly when the
body read itself raises `json.decoder.JSONDecodeError`; a response whose
body text merely fails to be valid JSON is read successfully by
`res.text()` and is returned as a normal envelope carrying that text as
its raw body. -/
theorem parse_error_wrapped_read_text_returned (cfg : Config) (injected : Option Session)
    (http_verb url : String) (query_params body_params : Option AList)
    (headers0 : Headers) (res : RawRes) (e t : String) :
    (performHttpRequest cfg injected http_verb url query_params body_params headers0
        (RequestOutcome.response res (TextRead.jsonDecodeError e))).result
      = CallResult.slackApiError ("Failed to parse the response body: " ++ e) res
    ∧ (performHttpRequest cfg injected http_verb url query_params body_params headers0
        (RequestOutcome.response res (TextRead.ok t))).result
      = CallResult.ok
          { url := url, status_code := res.status, raw_body := some t,
            headers := res.headers } :=
  ⟨rfl, rfl⟩

/-- C3 counterexample: a 200 response whose body text "<html>oops" is not
valid JSON does not make the call raise a `SlackApiError`; the call
returns the envelope carrying that raw body. -/
theorem not_json_body_returns_envelope :
    definitelyNotJson "<html>oops" = true
    ∧ isSlackApiError (performHttpRequest cfgEx Option.none "GET"
        "https://api.slack.com/audit/v1/logs" Option.none Option.none
        [("Authorization", "Bearer xoxp-1")]
        (RequestOutcome.response { status := 200, headers := [] }
          (TextRead.ok "<html>oops"))).result = false
    ∧ (performHttpRequest cfgEx Option.none "GET"
        "https://api.slack.com/audit/v1/logs" Option.none Option.none
        [("Authorization", "Bearer xoxp-1")]
        (RequestOutcome.response { status := 200, headers := [] }
          (TextRead.ok "<html>oops"))).result
      = CallResult.ok
          { url := "https://api.slack.com/audit/v1/logs", status_code := 200,
            raw_body := some "<html>oops", headers := [] } :=
  ⟨by decide, rfl, rfl⟩

/-- C4 (documents the code slip): on a call with no body
(`body_params = None`) nothing is serialized, yet the
`Content-Type: application/json;charset=utf-8` header is still attached,
because the assignment at line 203 of async_client.py is not guarded by
the body-presence check of lines 201-202; the claim (and the spec) say the
header is attached exactly when a body is present. -/
theorem content_type_attached_without_body :
    (performHttpRequest cfgEx Option.none "GET"
        "https://api.slack.com/audit/v1/schemas" Option.none Option.none
        [("Authorization", "Bearer xoxp-1")]
        (RequestOutcome.response { status := 200, headers := [] }
          (TextRead.ok "body"))).sentBody = Option.none
    ∧ lookup? (performHttpRequest cfgEx Option.none "GET"
        "https://api.slack.com/audit/v1/schemas" Option.none Option.none
        [("Authorization", "Bearer xoxp-1")]
        (RequestOutcome.response { status := 200, headers := [] }
          (TextRead.ok "body"))).sentHeaders "Content-Type"
      = some "application/json;charset=utf-8" :=
  ⟨rfl, by decide⟩

/-- C5: when reading the body raises `aiohttp.ContentTypeError`, no error
escapes the call: the envelope is still returned with an empty raw body,
and everything the call logs (in particular the no-response-data notice)
is at debug level. -/
theorem content_type_error_gives_empty_body (cfg : Config) (injected : Option Session)
    (http_verb url : String) (query_params body_params : Option AList)
    (headers0 : Headers) (res : RawRes) :
    (performHttpRequest cfg injected http_verb url query_params body_params headers0
        (RequestOutcome.response res TextRead.contentTypeError)).result
      = CallResult.ok
          { url := url, status_code := res.status, raw_body := Option.none,
            headers := res.headers }
    ∧ ((performHttpRequest cfg injected http_verb url query_params body_params headers0
        (RequestOutcome.response res TextRead.contentTypeError)).logTrace.all
          (fun r => r.level == DEBUG)) = true := by
  refine ⟨rfl, ?_⟩
  by_cases hdbg : cfg.loggerLevel ≤ DEBUG <;> simp [performHttpRequest, hdbg]

/-- C6: the debug-logged request headers carry "(redacted)" in place of the
value of every header named "Authorization" under case-insensitive
comparison and keep every other header value unchanged; consequently the
whole debug log trace of a call is the same whichever token the client
holds. -/
theorem debug_log_independent_of_token (cfg : Config) (tok1 tok2 : String)
    (injected : Option Session) (http_verb path : String)
    (query_params body_params : Option AList) (headers : Option Headers)
    (outcome : RequestOutcome) (hdr : Headers)
    (_hdbg : cfg.loggerLevel ≤ DEBUG) :
    (∀ p, p ∈ redactHeaders hdr → lowerAscii p.1 = "authorization" → p.2 = "(redacted)")
    ∧ (∀ p, p ∈ hdr → lowerAscii p.1 ≠ "authorization" → p ∈ redactHeaders hdr)
    ∧ (api_call { cfg with token := tok1 } injected http_verb path query_params
        body_params headers outcome).logTrace
      = (api_call { cfg with token := tok2 } injected http_verb path query_params
        body_params headers outcome).logTrace := by
  refine ⟨?_, ?_, ?_⟩
  · intro p hp hauth
    simp only [redactHeaders, List.mem_map] at hp
    obtain ⟨q, hq, hqp⟩ := hp
    subst hqp
    have hauth' : lowerAscii q.1 = "authorization" := hauth
    simp [hauth']
  · intro p hp hne
    simp only [redactHeaders, List.mem_map]
    refine ⟨p, hp, ?_⟩
    obtain ⟨pk, pv⟩ := p
    have hne' : lowerAscii pk ≠ "authorization" := hne
    simp [hne']
  · have hagree : AgreeExceptAuth
        (dictInsert (buildRequestHeaders tok1 cfg.defaultHeaders headers)
          "Content-Type" "application/json;charset=utf-8")
        (dictInsert (buildRequestHeaders tok2 cfg.defaultHeaders headers)
          "Content-Type" "application/json;charset=utf-8") := by
      apply agreeExceptAuth_dictInsert
      simp only [buildRequestHeaders]
      apply agreeExceptAuth_dictUpdate
      apply agreeExceptAuth_dictUpdate
      refine List.Forall₂.cons ⟨rfl, fun hne => absurd ?_ hne⟩ List.Forall₂.nil
      show lowerAscii "Authorization" = "authorization"
      decide
    have hred := redactHeaders_eq_of_agree _ _ hagree
    simp only [api_call, performHttpRequest]
    rw [hred]

theorem debug_log_independent_of_token_witness :
    cfgEx.loggerLevel ≤ DEBUG
    ∧ (api_call { cfgEx with token := "tok-one" } Option.none "GET" "logs"
        Option.none Option.none Option.none
        (RequestOutcome.response { status := 200, headers := [] }
          (TextRead.ok "body"))).logTrace
      = (api_call { cfgEx with token := "tok-two" } Option.none "GET" "logs"
        Option.none Option.none Option.none
        (RequestOutcome.response { status := 200, headers := [] }
          (TextRead.ok "body"))).logTrace :=
  ⟨by decide,
    (debug_log_independent_of_token cfgEx "tok-one" "tok-two" Option.none "GET" "logs"
        Option.none Option.none Option.none
        (RequestOutcome.response { status := 200, headers := [] }
          (TextRead.ok "body")) [] (by decide)).2.2⟩

/-- C7: `api_call` requests exactly `base_url ++ path` — recorded both as
the URL handed to `session.request` and in the returned envelope's `url`
field — and a call whose body read succeeds returns the one envelope
carrying that URL, the HTTP status code, the raw body text (whatever it
is, valid JSON or not) and the response headers. -/
theorem api_call_url_and_envelope (cfg : Config) (injected : Option Session)
    (http_verb path : String) (query_params body_params : Option AList)
    (headers : Option Headers) (outcome : RequestOutcome) (res : RawRes)
    (t : String) :
    (api_call cfg injected http_verb path query_params body_params headers
        outcome).requestUrl = cfg.baseUrl ++ path
    ∧ (api_call cfg injected http_verb path query_params body_params headers
        (RequestOutcome.response res (TextRead.ok t))).result
      = CallResult.ok
          { url := cfg.baseUrl ++ path, status_code := res.status,
            raw_body := some t, headers := res.headers } :=
  ⟨rfl, rfl⟩

/-- C8: with an externally supplied open session, the call uses that
session for the request, creates none of its own, the `finally` block
closes nothing, and the injected session is still open afterwards —
whether the call returns an envelope, raises the wrapped parse error, or
propagates a transport exception. -/
theorem injected_open_session_reused_never_closed (cfg : Config) (s : Session)
    (http_verb url : String) (query_params body_params : Option AList)
    (headers0 : Headers) (outcome : RequestOutcome) (hopen : s.closed = false) :
    (performHttpRequest cfg (some s) http_verb url query_params body_params headers0
        outcome).usedSession = SessionRef.injected
    ∧ (performHttpRequest cfg (some s) http_verb url query_params body_params headers0
        outcome).createdSession = Option.none
    ∧ (performHttpRequest cfg (some s) http_verb url query_params body_params headers0
        outcome).closedAtEnd = Option.none
    ∧ (performHttpRequest cfg (some s) http_verb url query_params body_params headers0
        outcome).injectedAfter = some s := by
  refine ⟨?_, ?_, ?_, ?_⟩ <;>
    simp [performHttpRequest, useRunningSession, hopen]

theorem injected_open_session_reused_never_closed_witness :
    ({ closed := false } : Session).closed = false
    ∧ (performHttpRequest cfgEx (some { closed := false }) "GET"
        "https://api.slack.com/audit/v1/logs" Option.none Option.none []
        (RequestOutcome.transportError "timeout")).injectedAfter
      = some { closed := false } :=
  ⟨rfl,
    (injected_open_session_reused_never_closed cfgEx { closed := false } "GET"
      "https://api.slack.com/audit/v1/logs" Option.none Option.none []
      (RequestOutcome.transportError "timeout") rfl).2.2.2⟩

/-- C9: the endpoint methods `schemas` and `actions` forward the caller's
`query_params` to `api_call` and on to the transport request kwargs
unchanged; unlike `logs`, no `None`-valued entry is dropped on the way. -/
theorem schemas_actions_forward_query_params (cfg : Config) (injected : Option Session)
    (query_params : Option AList) (headers : Option Headers)
    (outcome : RequestOutcome) :
    (schemas cfg injected query_params headers outcome).sentParams = query_params
    ∧ (actions cfg injected query_params headers outcome).sentParams = query_params :=
  ⟨rfl, rfl⟩

/-- C10: an `additional_query_params` entry mapping a key to `None` cancels
the like-named filter: the merge happens before the null-filtering, so the
key is absent from the assembled (and hence transmitted) query map even
when the named argument was non-null. -/
theorem logs_additional_none_cancels_named (cfg : Config) (injected : Option Session)
    (latest oldest limit : Option Int) (action actor entity : Option String)
    (a : AList) (headers : Option Headers) (outcome : RequestOutcome) (key : String)
    (hnd : (keys a).Nodup) (hkey : lookup? a key = some PyValue.none) :
    (logs cfg injected latest oldest limit action actor entity (some a)
        headers outcome).sentParams
      = some (logsQueryParams latest oldest limit action actor entity (some a))
    ∧ lookup? (logsQueryParams latest oldest limit action actor entity (some a)) key
      = Option.none := by
  refine ⟨rfl, ?_⟩
  rw [lookup_logsQueryParams latest oldest limit action actor entity (some a) key
      (by simpa [addlParams] using hnd)]
  simp [addlParams, hkey, dropNone]

theorem logs_additional_none_cancels_named_witness :
    ((keys [("latest", PyValue.none)]).Nodup
      ∧ lookup? [("latest", PyValue.none)] "latest" = some PyValue.none)
    ∧ lookup? (logsQueryParams (some 123) Option.none Option.none Option.none
        Option.none Option.none (some [("latest", PyValue.none)])) "latest"
      = Option.none :=
  ⟨⟨by decide, by decide⟩,
    (logs_additional_none_cancels_named cfgEx Option.none (some 123) Option.none
        Option.none Option.none Option.none Option.none [("latest", PyValue.none)]
        Option.none (RequestOutcome.transportError "down") "latest"
        (by decide) (by decide)).2⟩

end SlackAudit
